import Mathlib

/-!
Verification of the node-js-controller-adapter repository: a framework-agnostic
controller (`CommonController.handle`) bound to two transports via
`expressRouteAdapter` and `fastifyRouteAdapter`, with a header-reading
`simpleMiddleware` in each app. The JavaScript semantics the code relies on
(truthiness, property access on possibly-nullish values, optional chaining,
template-literal stringification) is embedded explicitly below.
-/

/-- A JavaScript runtime value, covering exactly the shapes this codebase
inspects: `undefined`, `null`, booleans, numbers (the code never relies on
float behaviour, so integers suffice), strings, string sequences (Node
multi-value headers, `string[]`), and objects as association lists. -/
inductive JsValue where
  | undefined : JsValue
  | null : JsValue
  | bool : Bool → JsValue
  | num : Int → JsValue
  | str : String → JsValue
  | strs : List String → JsValue
  | obj : List (String × JsValue) → JsValue
  deriving Repr

/-- JavaScript truthiness, as used by `if (httpRequest.body.name)` and by
`x || "default"`: `undefined`, `null`, `false`, `0` and `""` are falsy,
everything else (objects and arrays included) is truthy. -/
def JsValue.truthy : JsValue → Bool
  | .undefined => false
  | .null => false
  | .bool b => b
  | .num n => n != 0
  | .str s => s != ""
  | .strs _ => true
  | .obj _ => true

/-- Plain property access `v.k`. `none` models the TypeError thrown when the
base is `null` or `undefined`; on a primitive base the named properties this
code reads (`name`, `message`, `userid`, `workspaceid`) do not exist, so the
access yields `undefined`; on an object it is association-list lookup
(absent key yields `undefined`). -/
def JsValue.getProp : JsValue → String → Option JsValue
  | .undefined, _ => none
  | .null, _ => none
  | .obj fields, k => some ((fields.lookup k).getD .undefined)
  | _, _ => some .undefined

/-- Optional-chaining property access `v?.k`: total, yielding `undefined`
when the base is nullish. -/
def JsValue.optGet (v : JsValue) (k : String) : JsValue :=
  (v.getProp k).getD .undefined

/-- JavaScript string conversion as used by template literals and
`.toString()` on the values above; a string sequence stringifies as its
elements joined by commas (Array.prototype.toString). -/
def JsValue.jsToString : JsValue → String
  | .undefined => "undefined"
  | .null => "null"
  | .bool true => "true"
  | .bool false => "false"
  | .num n => toString n
  | .str s => s
  | .strs xs => String.intercalate "," xs
  | .obj _ => "[object Object]"

/-- Optional-chained stringification `v?.toString()`: `none` when the base is
nullish (the JS expression evaluates to `undefined`). -/
def JsValue.optToString : JsValue → Option String
  | .undefined => none
  | .null => none
  | v => some v.jsToString

/-- `true` exactly for `undefined` and `null`. -/
def JsValue.isNullish : JsValue → Bool
  | .undefined => true
  | .null => true
  | _ => false

/-- `true` exactly for object values. -/
def JsValue.isObj : JsValue → Bool
  | .obj _ => true
  | _ => false

/-- A thrown JavaScript error; the only error this code can raise is the
TypeError from reading a property of a nullish value. In the async handlers
a throw surfaces as a rejected promise, modelled by `Except.error`. -/
inductive JsError where
  | typeError : JsError
  deriving Repr, DecidableEq

/-- The neutral request shape (`HttpRequest` in
src/common/interfaces/HttpRequest.ts): `body`, `params` and `headers` carry
whatever the transport supplied (the interface types `params`/`headers` as
`any`, and `body` is populated by an untyped copy from the raw request, so
all three are modelled as arbitrary JS values); `userId` and `workspaceId`
are optional strings attached by upstream middleware. -/
structure HttpRequest where
  body : JsValue
  params : JsValue
  headers : JsValue
  userId : Option String
  workspaceId : Option String
  deriving Repr

/-- The neutral response shape (`HttpResponse`). Its interface file is not in
src/; the shape is fixed by the spec's NeutralResponse (`statusCode` integer,
`body` message payload) and by every use site (`{statusCode, body:{message}}`
in the controller, `statusCode`/`body?.message` in the adapters). -/
structure HttpResponse where
  statusCode : Int
  body : JsValue
  deriving Repr

/-- `CommonController.handle` (src/common/controller/CommonController.ts):
reads `httpRequest.body.name`; if truthy, returns 200 with
`{message: ` Hello, <name>! `}` (template literal, so the name value is
stringified), else 400 with `{message: "Name is required"}`. The property
read throws when `body` is nullish. The `console.log` on the success path
does not affect the result and is not modelled. -/
def CommonController.handle (httpRequest : HttpRequest) :
    Except JsError HttpResponse :=
  match httpRequest.body.getProp "name" with
  | none => .error .typeError
  | some name =>
    if name.truthy then
      .ok { statusCode := 200,
            body := .obj [("message", .str ("Hello, " ++ name.jsToString ++ "!"))] }
    else
      .ok { statusCode := 400,
            body := .obj [("message", .str "Name is required")] }

/-- A raw transport request as the adapters read it: the fields `body`,
`params`, `headers` of the express `Request` / fastify `FastifyRequest`,
plus the `userId`/`workspaceId` augmentations written by the middleware. -/
structure RawRequest where
  body : JsValue
  params : JsValue
  headers : JsValue
  userId : Option String
  workspaceId : Option String
  deriving Repr

/-- The reply a handler writes: `res.status(s).json(b)` in express,
`reply.status(s).send(b)` in fastify — one status plus one body. -/
structure Reply where
  status : Int
  body : JsValue
  deriving Repr

/-- `expressRouteAdapter` (src/app/express/expressRouteAdapter.ts): a factory
that binds a controller and returns the express handler. The bound
controller instance is represented by its `handle` method. The handler
copies `req.body/params/headers/userId/workspaceId` into an `HttpRequest`,
awaits `controller.handle`, then writes the status and body as-is for a 2xx
`statusCode` and otherwise writes `{error: httpResponse.body?.message}`. -/
def expressRouteAdapter
    (controller : HttpRequest → Except JsError HttpResponse)
    (req : RawRequest) : Except JsError Reply :=
  let httpRequest : HttpRequest :=
    { body := req.body, params := req.params, headers := req.headers,
      userId := req.userId, workspaceId := req.workspaceId }
  match controller httpRequest with
  | .error e => .error e
  | .ok httpResponse =>
    if 200 ≤ httpResponse.statusCode ∧ httpResponse.statusCode ≤ 299 then
      .ok { status := httpResponse.statusCode, body := httpResponse.body }
    else
      .ok { status := httpResponse.statusCode,
            body := .obj [("error", httpResponse.body.optGet "message")] }

/-- `fastifyRouteAdapter` (src/app/fastify/fastifyRouteAdapter.ts): the same
factory shape over fastify's `request`/`reply`, assembling the identical
`HttpRequest` and performing the identical 2xx/else split. -/
def fastifyRouteAdapter
    (controller : HttpRequest → Except JsError HttpResponse)
    (req : RawRequest) : Except JsError Reply :=
  let httpRequest : HttpRequest :=
    { body := req.body, params := req.params, headers := req.headers,
      userId := req.userId, workspaceId := req.workspaceId }
  match controller httpRequest with
  | .error e => .error e
  | .ok httpResponse =>
    if 200 ≤ httpResponse.statusCode ∧ httpResponse.statusCode ≤ 299 then
      .ok { status := httpResponse.statusCode, body := httpResponse.body }
    else
      .ok { status := httpResponse.statusCode,
            body := .obj [("error", httpResponse.body.optGet "message")] }

/-- `simpleMiddleware` from the express app (expressApp.ts): sets
`req.userId = req.headers["userid"]?.toString() || "default"` and
`req.workspaceId = req.headers["workspaceid"]?.toString()`. The header reads
throw only if `headers` itself is nullish. -/
def Express.simpleMiddleware (req : RawRequest) : Except JsError RawRequest :=
  match req.headers.getProp "userid" with
  | none => .error .typeError
  | some u =>
    match req.headers.getProp "workspaceid" with
    | none => .error .typeError
    | some w =>
      .ok { req with
            userId := some (match u.optToString with
                            | some s => if s == "" then "default" else s
                            | none => "default"),
            workspaceId := w.optToString }

/-- `simpleMiddleware` from the fastify app (fastify setup file): the same
two header-to-field assignments over the fastify request. -/
def Fastify.simpleMiddleware (req : RawRequest) : Except JsError RawRequest :=
  match req.headers.getProp "userid" with
  | none => .error .typeError
  | some u =>
    match req.headers.getProp "workspaceid" with
    | none => .error .typeError
    | some w =>
      .ok { req with
            userId := some (match u.optToString with
                            | some s => if s == "" then "default" else s
                            | none => "default"),
            workspaceId := w.optToString }

/-- Encoding of a neutral request as a JS value; used as the body of a probe
controller to observe the exact `HttpRequest` an adapter assembles. -/
def encodeRequest (r : HttpRequest) : JsValue :=
  .obj [("body", r.body), ("params", r.params), ("headers", r.headers),
        ("userId", match r.userId with | some s => .str s | none => .undefined),
        ("workspaceId", match r.workspaceId with | some s => .str s | none => .undefined)]

/-- A probe controller returning, as a 200 body, the request it was given. -/
def echoController (r : HttpRequest) : Except JsError HttpResponse :=
  .ok { statusCode := 200, body := encodeRequest r }

/-- C1: for every request whose body maps `name` to a non-empty string `S`,
`CommonController.handle` returns statusCode 200 and a body whose `message`
is `"Hello, " ++ S ++ "!"`. -/
theorem handle_greets_nonempty_name (r : HttpRequest) (S : String)
    (hname : r.body.getProp "name" = some (.str S)) (hS : S ≠ "") :
    CommonController.handle r =
      .ok { statusCode := 200,
            body := .obj [("message", .str ("Hello, " ++ S ++ "!"))] } := by
  unfold CommonController.handle
  rw [hname]
  simp [JsValue.truthy, JsValue.jsToString, hS]

/-- Witness for C1 at the spec's concrete scenario `{"name": "Ada"}`. -/
theorem handle_greets_nonempty_name_witness :
    CommonController.handle
      { body := .obj [("name", .str "Ada")], params := .obj [],
        headers := .obj [], userId := none, workspaceId := none } =
      .ok { statusCode := 200,
            body := .obj [("message", .str "Hello, Ada!")] } :=
  handle_greets_nonempty_name _ "Ada" rfl (by decide)

/-- C2: for every request whose body yields an absent, empty or otherwise
falsy `name` value, `CommonController.handle` returns statusCode 400 and
body message "Name is required". -/
theorem handle_rejects_falsy_name (r : HttpRequest) (v : JsValue)
    (hname : r.body.getProp "name" = some v) (hv : v.truthy = false) :
    CommonController.handle r =
      .ok { statusCode := 400,
            body := .obj [("message", .str "Name is required")] } := by
  unfold CommonController.handle
  rw [hname]
  simp [hv]

/-- Witness for C2 at the empty body `{}` (name absent). -/
theorem handle_rejects_falsy_name_witness :
    CommonController.handle
      { body := .obj [], params := .obj [], headers := .obj [],
        userId := none, workspaceId := none } =
      .ok { statusCode := 400,
            body := .obj [("message", .str "Name is required")] } :=
  handle_rejects_falsy_name _ .undefined rfl (by decide)

/-- C3: bound to the same controller, the express handler and the fastify
handler assemble the identical `HttpRequest` from the same raw fields and
produce the identical written outcome: as functions of controller and raw
request they are equal. -/
theorem adapters_interchangeable
    (controller : HttpRequest → Except JsError HttpResponse)
    (req : RawRequest) :
    expressRouteAdapter controller req = fastifyRouteAdapter controller req :=
  rfl

/-- C4 counterexample: at the concrete request whose body is `null`,
`CommonController.handle` does not return normally — the read of
`httpRequest.body.name` throws a TypeError (the async method yields a
rejected promise), so the claim that `handle` never fails for any input,
with a non-mapping body treated as "name absent", is false. -/
theorem handle_throws_on_null_body :
    CommonController.handle
      { body := .null, params := .obj [], headers := .obj [],
        userId := none, workspaceId := none } =
      .error .typeError :=
  rfl

/-- C4 amended: `handle` returns normally for every request whose body is
not nullish; in particular a malformed body that is a non-nullish
non-mapping (boolean, number, string, string sequence) yields `undefined`
for `name` and hence the 400 "Name is required" response. Only a `null` or
`undefined` body makes the property read throw. -/
theorem handle_total_unless_nullish_body (r : HttpRequest)
    (h : r.body.isNullish = false) :
    (CommonController.handle r).isOk = true ∧
    (r.body.isObj = false →
      CommonController.handle r =
        .ok { statusCode := 400,
              body := .obj [("message", .str "Name is required")] }) := by
  unfold CommonController.handle
  cases hb : r.body with
  | undefined => rw [hb] at h; simp [JsValue.isNullish] at h
  | null => rw [hb] at h; simp [JsValue.isNullish] at h
  | bool b =>
    cases b <;> exact ⟨rfl, fun _ => rfl⟩
  | num n =>
    exact ⟨rfl, fun _ => rfl⟩
  | str s =>
    exact ⟨rfl, fun _ => rfl⟩
  | strs xs =>
    exact ⟨rfl, fun _ => rfl⟩
  | obj fields =>
    refine ⟨?_, fun hobj => by simp [JsValue.isObj] at hobj⟩
    simp only [JsValue.getProp]
    split <;> rfl

/-- Witness for C4 amended at the malformed body `5` (a number, not a
mapping): `handle` answers 400 instead of throwing. -/
theorem handle_total_unless_nullish_body_witness :
    (CommonController.handle
      { body := .num 5, params := .obj [], headers := .obj [],
        userId := none, workspaceId := none }).isOk = true ∧
    ((JsValue.num 5).isObj = false →
      CommonController.handle
        { body := .num 5, params := .obj [], headers := .obj [],
          userId := none, workspaceId := none } =
        .ok { statusCode := 400,
              body := .obj [("message", .str "Name is required")] }) :=
  handle_total_unless_nullish_body
    { body := .num 5, params := .obj [], headers := .obj [],
      userId := none, workspaceId := none } rfl

/-- C5: for every neutral response with a 2xx statusCode, both handlers
write exactly that statusCode and the response body unmodified (no envelope
wrapping), whatever raw request arrived. -/
theorem adapters_write_2xx_body_identically
    (resp : HttpResponse) (req : RawRequest)
    (h1 : 200 ≤ resp.statusCode) (h2 : resp.statusCode ≤ 299) :
    expressRouteAdapter (fun _ => .ok resp) req =
      .ok { status := resp.statusCode, body := resp.body } ∧
    fastifyRouteAdapter (fun _ => .ok resp) req =
      .ok { status := resp.statusCode, body := resp.body } := by
  unfold expressRouteAdapter fastifyRouteAdapter
  simp [h1, h2]

/-- Witness for C5 at statusCode 204 with a non-object body. -/
theorem adapters_write_2xx_body_identically_witness :
    expressRouteAdapter (fun _ => .ok { statusCode := 204, body := .str "raw" })
      { body := .obj [], params := .obj [], headers := .obj [],
        userId := none, workspaceId := none } =
      .ok { status := 204, body := .str "raw" } ∧
    fastifyRouteAdapter (fun _ => .ok { statusCode := 204, body := .str "raw" })
      { body := .obj [], params := .obj [], headers := .obj [],
        userId := none, workspaceId := none } =
      .ok { status := 204, body := .str "raw" } :=
  adapters_write_2xx_body_identically { statusCode := 204, body := .str "raw" }
    { body := .obj [], params := .obj [], headers := .obj [],
      userId := none, workspaceId := none } (by decide) (by decide)

/-- C6: for every neutral response whose statusCode lies outside [200,299]
(including values below 200), both handlers write that statusCode with the
body reshaped to exactly `{error: body?.message}`, discarding every other
field of the original body. -/
theorem adapters_write_error_envelope
    (resp : HttpResponse) (req : RawRequest) (m : JsValue)
    (h : resp.statusCode < 200 ∨ 299 < resp.statusCode)
    (hm : resp.body.optGet "message" = m) :
    expressRouteAdapter (fun _ => .ok resp) req =
      .ok { status := resp.statusCode, body := .obj [("error", m)] } ∧
    fastifyRouteAdapter (fun _ => .ok resp) req =
      .ok { status := resp.statusCode, body := .obj [("error", m)] } := by
  have hcond : ¬(200 ≤ resp.statusCode ∧ resp.statusCode ≤ 299) := by omega
  unfold expressRouteAdapter fastifyRouteAdapter
  simp [hcond, hm]

/-- Witness for C6 at statusCode 404 and a body carrying `message` plus an
extra `detail` field, which is dropped. -/
theorem adapters_write_error_envelope_witness :
    expressRouteAdapter
      (fun _ => .ok { statusCode := 404,
                      body := .obj [("message", .str "nope"), ("detail", .str "x")] })
      { body := .obj [], params := .obj [], headers := .obj [],
        userId := none, workspaceId := none } =
      .ok { status := 404, body := .obj [("error", .str "nope")] } ∧
    fastifyRouteAdapter
      (fun _ => .ok { statusCode := 404,
                      body := .obj [("message", .str "nope"), ("detail", .str "x")] })
      { body := .obj [], params := .obj [], headers := .obj [],
        userId := none, workspaceId := none } =
      .ok { status := 404, body := .obj [("error", .str "nope")] } :=
  adapters_write_error_envelope
    { statusCode := 404,
      body := .obj [("message", .str "nope"), ("detail", .str "x")] }
    { body := .obj [], params := .obj [], headers := .obj [],
      userId := none, workspaceId := none }
    (.str "nope") (by decide) rfl

/-- C7 counterexample: at the concrete raw request whose `body` is `null`,
the express handler hands the controller an `HttpRequest` whose body is
`null` — observed here by a controller echoing its request body — so the
claim that the assembled NeutralRequest body is never null is false: the
adapter copies the raw body verbatim without defaulting. -/
theorem adapter_assembles_null_body :
    expressRouteAdapter (fun r => .ok { statusCode := 200, body := r.body })
      { body := .null, params := .obj [], headers := .obj [],
        userId := none, workspaceId := none } =
      .ok { status := 200, body := .null } :=
  rfl

/-- C7 amended: the assembly is total and is the identity on the raw fields
— for every raw request both handlers pass the controller an `HttpRequest`
whose body, params, headers, userId and workspaceId equal the raw request's
fields exactly (absent optional fields stay absent, nothing throws); the
body is therefore present, possibly `null`-ish, exactly when the raw body
is, and the non-null invariant is inherited from upstream rather than
established by the adapter. Observed by the echo probe controller. -/
theorem adapter_assembly_is_verbatim (req : RawRequest) :
    expressRouteAdapter echoController req =
      .ok { status := 200,
            body := encodeRequest
              { body := req.body, params := req.params, headers := req.headers,
                userId := req.userId, workspaceId := req.workspaceId } } ∧
    fastifyRouteAdapter echoController req =
      .ok { status := 200,
            body := encodeRequest
              { body := req.body, params := req.params, headers := req.headers,
                userId := req.userId, workspaceId := req.workspaceId } } :=
  ⟨rfl, rfl⟩

/-- C8 counterexample: with the `userid` header present but equal to the
empty string, both middlewares set `userId` to `"default"`, not to the
header's string value `""` — `"".toString() || "default"` takes the
fallback because the empty string is falsy — so the claim that a present
header's string value is always used is false. -/
theorem simpleMiddleware_empty_userid_header_defaults :
    Express.simpleMiddleware
      { body := .obj [], params := .obj [],
        headers := .obj [("userid", .str "")],
        userId := none, workspaceId := none } =
      .ok { body := .obj [], params := .obj [],
            headers := .obj [("userid", .str "")],
            userId := some "default", workspaceId := none } ∧
    Fastify.simpleMiddleware
      { body := .obj [], params := .obj [],
        headers := .obj [("userid", .str "")],
        userId := none, workspaceId := none } =
      .ok { body := .obj [], params := .obj [],
            headers := .obj [("userid", .str "")],
            userId := some "default", workspaceId := none } :=
  ⟨rfl, rfl⟩

/-- C8 amended: both middlewares set `userId` to the stringified `userid`
header when that string is non-empty, and to "default" when the header is
absent, nullish, or stringifies to the empty string; `workspaceId` is set
to the stringified `workspaceid` header, staying absent when that header is
absent or nullish. Both middlewares agree, and no other field changes. -/
theorem simpleMiddleware_sets_context_fields (req : RawRequest)
    (u w : JsValue)
    (hu : req.headers.getProp "userid" = some u)
    (hw : req.headers.getProp "workspaceid" = some w) :
    Express.simpleMiddleware req =
      .ok { req with
            userId := some (match u.optToString with
                            | some s => if s == "" then "default" else s
                            | none => "default"),
            workspaceId := w.optToString } ∧
    Express.simpleMiddleware req = Fastify.simpleMiddleware req := by
  unfold Express.simpleMiddleware Fastify.simpleMiddleware
  rw [hu, hw]
  exact ⟨rfl, rfl⟩

/-- Witness for C8 amended at the spec's concrete scenario: header
`userid: "u1"` present and no `workspaceid` — the result carries
`userId = "u1"` and no `workspaceId`. -/
theorem simpleMiddleware_sets_context_fields_witness :
    Express.simpleMiddleware
      { body := .obj [], params := .obj [],
        headers := .obj [("userid", .str "u1")],
        userId := none, workspaceId := none } =
      .ok { body := .obj [], params := .obj [],
            headers := .obj [("userid", .str "u1")],
            userId := some "u1", workspaceId := none } :=
  (simpleMiddleware_sets_context_fields
    { body := .obj [], params := .obj [],
      headers := .obj [("userid", .str "u1")],
      userId := none, workspaceId := none }
    (.str "u1") .undefined rfl rfl).1

/-- C9: every response `CommonController.handle` returns normally has
statusCode 200 or 400, and its body is exactly a one-field object
`{message: m}` for some non-empty string `m` — so the adapters' error-path
extraction of `body.message` never meets a missing message on
controller-produced responses. -/
theorem handle_response_invariant (r : HttpRequest) (resp : HttpResponse)
    (h : CommonController.handle r = .ok resp) :
    (resp.statusCode = 200 ∨ resp.statusCode = 400) ∧
    ∃ m : String, m ≠ "" ∧ resp.body = .obj [("message", .str m)] := by
  unfold CommonController.handle at h
  cases hg : r.body.getProp "name" with
  | none => rw [hg] at h; exact absurd h (by simp)
  | some name =>
    rw [hg] at h
    have h2 :
        (if name.truthy = true then
          (Except.ok
            { statusCode := 200,
              body := .obj [("message",
                .str ("Hello, " ++ name.jsToString ++ "!"))] } :
            Except JsError HttpResponse)
        else
          Except.ok
            { statusCode := 400,
              body := .obj [("message", .str "Name is required")] }) =
          Except.ok resp := h
    by_cases ht : name.truthy = true
    · rw [if_pos ht] at h2
      cases h2
      refine ⟨Or.inl rfl, "Hello, " ++ name.jsToString ++ "!", ?_, rfl⟩
      intro hemp
      have hlen := congrArg String.length hemp
      simp [String.length_append] at hlen
      exact absurd hlen.1.1 (by decide)
    · rw [if_neg ht] at h2
      cases h2
      exact ⟨Or.inr rfl, "Name is required", by decide, rfl⟩

/-- Witness for C9 at the request `{"name": "Ada"}` and its response. -/
theorem handle_response_invariant_witness :
    ((200 : Int) = 200 ∨ (200 : Int) = 400) ∧
    ∃ m : String, m ≠ "" ∧
      JsValue.obj [("message", .str "Hello, Ada!")] =
        .obj [("message", .str m)] :=
  handle_response_invariant
    { body := .obj [("name", .str "Ada")], params := .obj [],
      headers := .obj [], userId := none, workspaceId := none }
    { statusCode := 200, body := .obj [("message", .str "Hello, Ada!")] }
    rfl

/-- C10: on the non-2xx path both handlers are total in the response body:
for every neutral response whose body is nullish or lacks a `message` field
(so `body?.message` is `undefined`), the handler does not throw and writes
the envelope `{error: undefined}`. -/
theorem adapters_error_envelope_total
    (resp : HttpResponse) (req : RawRequest)
    (h : resp.statusCode < 200 ∨ 299 < resp.statusCode)
    (hm : resp.body.optGet "message" = .undefined) :
    expressRouteAdapter (fun _ => .ok resp) req =
      .ok { status := resp.statusCode,
            body := .obj [("error", .undefined)] } ∧
    fastifyRouteAdapter (fun _ => .ok resp) req =
      .ok { status := resp.statusCode,
            body := .obj [("error", .undefined)] } := by
  have hcond : ¬(200 ≤ resp.statusCode ∧ resp.statusCode ≤ 299) := by omega
  unfold expressRouteAdapter fastifyRouteAdapter
  simp [hcond, hm]

/-- Witness for C10 at statusCode 500 with a `null` body. -/
theorem adapters_error_envelope_total_witness :
    expressRouteAdapter (fun _ => .ok { statusCode := 500, body := .null })
      { body := .obj [], params := .obj [], headers := .obj [],
        userId := none, workspaceId := none } =
      .ok { status := 500, body := .obj [("error", .undefined)] } ∧
    fastifyRouteAdapter (fun _ => .ok { statusCode := 500, body := .null })
      { body := .obj [], params := .obj [], headers := .obj [],
        userId := none, workspaceId := none } =
      .ok { status := 500, body := .obj [("error", .undefined)] } :=
  adapters_error_envelope_total { statusCode := 500, body := .null }
    { body := .obj [], params := .obj [], headers := .obj [],
      userId := none, workspaceId := none }
    (by decide) rfl
